import Mathlib

/-!
Verification of `generate-widget-reference.py` (Community-Tech-UK/communitytech-plugin).

The script is a one-shot reporting utility: it resolves credentials, fetches a
widget list, filters widget identifiers, fetches per-widget control schemas,
filters and formats controls, and assembles a markdown document.  This file is
a shallow embedding of the pure parts of that pipeline (JSON values, the
filter tables, `should_skip`, `format_control`, `format_widget`, the worklist
`practical`, command-line/environment credential resolution, and the
document-assembly category ordering), together with theorems settling the
behavioural claims made about them.
-/

namespace WidgetRef

/-- JSON values as far as the script inspects them.  Numeric values are
modelled as integers (the script only ever tests them for Python truthiness
and interpolates them into strings; no claim depends on non-integer
numerics).  `pyStr` below renders scalar values the way a Python f-string
does; composite values are abbreviated (no formatter branch renders a
composite with claim-relevant data). -/
inductive JVal where
  | str (s : String)
  | num (n : Int)
  | bool (b : Bool)
  | null
  | arr (xs : List JVal)
  | dict (entries : List (String × JVal))
deriving Repr

/-- Python truthiness of a JSON value (`if default:` etc.). -/
def JVal.truthy : JVal → Bool
  | .str s => s ≠ ""
  | .num n => n ≠ 0
  | .bool b => b
  | .null => false
  | .arr xs => !xs.isEmpty
  | .dict entries => !entries.isEmpty

/-- Python `str()` of a scalar JSON value, as interpolated by an f-string. -/
def JVal.pyStr : JVal → String
  | .str s => s
  | .num n => toString n
  | .bool b => if b then "True" else "False"
  | .null => "None"
  | .arr _ => ""
  | .dict _ => ""

/-- Python `d.get(k)` on a parsed JSON object (keys are unique after parsing). -/
def alistGet (d : List (String × JVal)) (k : String) : Option JVal :=
  (d.find? (fun kv => kv.1 == k)).map Prod.snd

/-- The `options` field of a control: a mapping or a sequence.
`ctrl.get("options", {})` defaults an absent field to the empty mapping. -/
inductive OptionsVal where
  | omap (entries : List (String × JVal))
  | olist (xs : List JVal)
deriving Repr

/-- A control descriptor, with the fields the script reads.  The Python
`section` field is called `sectionKey` here because `section` is a Lean
keyword.  An absent field is `none` (the script supplies per-call defaults
through `.get`). -/
structure Ctrl where
  type : Option String := none
  default : Option JVal := none
  options : Option OptionsVal := none
  sectionKey : Option String := none
  tab : Option String := none
  label : Option String := none
deriving Repr

/-- A widget detail response, with the fields the script reads.  `controls`
is an insertion-ordered association list, matching a parsed JSON object. -/
structure Detail where
  title : Option String := none
  keywords : List String := []
  controls : List (String × Ctrl) := []
  categories : Option (List String) := none
deriving Repr

/-! ## Python string predicates

Modelled on the script's `str.startswith` / `str.endswith` / `in`, computed
over code points (`String.data`), which keeps them kernel-evaluable. -/

/-- Python `s.startswith(pre)`. -/
def pyStartsWith (s pre : String) : Bool := pre.data.isPrefixOf s.data

/-- Python `s.endswith(suf)`. -/
def pyEndsWith (s suf : String) : Bool := suf.data.isSuffixOf s.data

/-- Python `sub in s` on char lists. -/
def containsSub (sub : List Char) : List Char → Bool
  | [] => sub.isPrefixOf []
  | c :: cs => sub.isPrefixOf (c :: cs) || containsSub sub cs

/-- Python `sub in s` for strings. -/
def pyContains (s sub : String) : Bool := containsSub sub.data s.data

/-! ## Widget-identifier exclusion (pre-fetch) -/

def skip_names : List String :=
  ["common-base", "common", "common-optimized", "inner-section", "e-component"]

def skip_prefixes : List String := ["wp-widget-"]

/-- The fetch worklist: widget identifiers surviving the exact-name and
prefix exclusions, in list (response) order. -/
def practical (widgets : List String) : List String :=
  widgets.filter (fun name =>
    !(skip_names.contains name) && !(skip_prefixes.any (fun p => pyStartsWith name p)))

/-! ## Control filter tables and `should_skip` -/

def SKIP_CONTAINS : List String :=
  ["_font_family", "_font_size", "_font_weight", "_text_transform", "_font_style",
   "_text_decoration", "_line_height", "_letter_spacing", "_word_spacing",
   "_text_shadow",
   "_box_shadow",
   "_color_stop", "_color_b", "_gradient_type", "_gradient_angle", "_gradient_position",
   "_xpos", "_ypos", "_attachment", "_repeat", "_bg_width",
   "_slideshow_", "_video_link", "_video_start", "_video_end", "_video_fallback",
   "_play_once", "_privacy_mode", "_ken_burns",
   "_blur", "_brightness", "_contrast", "_saturate", "_hue",
   "_stroke_color"]

def SKIP_SUFFIXES : List String :=
  ["_tablet", "_mobile", "_widescreen", "_laptop", "_tablet_extra", "_mobile_extra"]

def SKIP_TYPES : List String :=
  ["hidden", "section", "tabs", "tab", "alert", "divider", "raw_html",
   "deprecated_notice", "heading"]

def SKIP_EXACT : List String :=
  ["background_position", "background_size", "background_image",
   "background_video", "background_color_stop"]

/-- Python `ctrl.get("type") in SKIP_TYPES` (an absent type is not in the set). -/
def typeSkipped (ctrl : Ctrl) : Bool :=
  match ctrl.type with
  | some t => SKIP_TYPES.contains t
  | none => false

/-- The filter `should_skip(key, ctrl)`: the ordered chain of control-exclusion rules. -/
def should_skip (key : String) (ctrl : Ctrl) : Bool :=
  if pyStartsWith key "_" then true
  else if typeSkipped ctrl then true
  else if SKIP_SUFFIXES.any (fun s => pyEndsWith key s) then true
  else if SKIP_EXACT.contains key then true
  else if SKIP_CONTAINS.any (fun p => pyContains key p) then
    -- But keep the main toggle (e.g. typography_typography, text_shadow_text_shadow_type)
    if pyEndsWith key "_typography" || pyEndsWith key "_type" then false else true
  else if pyContains key "hover_" &&
          (["_position", "_size", "_image", "_video", "_slideshow"].any
            (fun p => pyContains key p)) then true
  else if pyContains key "css_filter" && !(pyEndsWith key "css_filter") then true
  else false

/-! ## Control formatter -/

/-- The formatter `format_control(key, ctrl)`: one inline markdown fragment per surviving
control. -/
def format_control (key : String) (ctrl : Ctrl) : String :=
  let ctype := ctrl.type.getD "unknown"
  let dflt := ctrl.default.getD (.str "")
  let options := ctrl.options.getD (.omap [])
  match options with
  | .olist _ => "`" ++ key ++ "`" ++ " (" ++ ctype ++ ")"
  | .omap entries =>
    let result := "`" ++ key ++ "`"
    if ctype == "select" && !entries.isEmpty then
      let optKeys := (entries.map Prod.fst).filter (fun k => k != "")
      if optKeys.isEmpty then result
      else if optKeys.length ≤ 6 then
        result ++ " (" ++ String.intercalate ", " optKeys ++ ")"
      else
        result ++ " (" ++ String.intercalate ", " (optKeys.take 5) ++ ", +" ++
          toString (optKeys.length - 5) ++ ")"
    else if ctype = "choose" then
      result ++ " (" ++ String.intercalate ", " (entries.map Prod.fst) ++ ")"
    else if ctype = "repeater" then result ++ " (repeater)"
    else if ctype = "switcher" then result ++ " (on/off)"
    else if ctype = "color" then result ++ " (color)"
    else if ctype = "slider" then
      match dflt with
      | .dict d =>
        if !d.isEmpty && ((alistGet d "size").map JVal.truthy).getD false then
          result ++ " (slider, default: " ++ ((alistGet d "size").getD .null).pyStr ++
            ((alistGet d "unit").getD (.str "")).pyStr ++ ")"
        else result ++ " (slider)"
      | _ => result ++ " (slider)"
    else if ctype = "dimensions" then result ++ " (dimensions)"
    else if ctype = "media" then result ++ " (media)"
    else if ctype = "gallery" then result ++ " (gallery)"
    else if ctype = "icons" then result ++ " (icons)"
    else if ctype = "url" then result ++ " (url)"
    else if ctype = "wysiwyg" then result ++ " (wysiwyg)"
    else if ctype = "text" ∨ ctype = "textarea" ∨ ctype = "number" then
      match dflt with
      | .str s =>
        if s ≠ "" ∧ s.length < 30 then
          result ++ " (" ++ ctype ++ ", default: \"" ++ s ++ "\")"
        else result ++ " (" ++ ctype ++ ")"
      | _ => result ++ " (" ++ ctype ++ ")"
    else result ++ " (" ++ ctype ++ ")"

/-! ## Grouping and widget block formatter -/

/-- A group of sibling controls: the dict value
`{"label": ..., "tab": ..., "controls": [...]}` built by `format_widget`. -/
structure Group where
  label : String
  tab : String
  controls : List (String × Ctrl)
deriving Repr

/-- The first (unique-keyed) section-header control named `s`: the entry the
loop `for key, ctrl in controls.items(): if ctrl.get("type") == "section"`
records for `s`. -/
def sectionHeader (controls : List (String × Ctrl)) (s : String) : Option (String × Ctrl) :=
  controls.find? (fun kc => kc.2.type == some "section" && kc.1 == s)

/-- Python `section_labels.get(s)`: the header's `label` field, defaulting to the
section key. -/
def sectionLabel (controls : List (String × Ctrl)) (s : String) : Option String :=
  (sectionHeader controls s).map (fun kc => kc.2.label.getD kc.1)

/-- Python `section_tabs.get(s)`: the header's `tab` field, defaulting to
`content`. -/
def sectionTab (controls : List (String × Ctrl)) (s : String) : Option String :=
  (sectionHeader controls s).map (fun kc => kc.2.tab.getD "content")

/-- The effective tab of a control:
`ctrl.get("tab", section_tabs.get(section, "content"))` where `section` is
`ctrl.get("section", "other")`. -/
def effectiveTab (controls : List (String × Ctrl)) (kc : String × Ctrl) : String :=
  kc.2.tab.getD ((sectionTab controls (kc.2.sectionKey.getD "other")).getD "content")

/-- One iteration of the grouping loop in `format_widget`: skip filtered and
advanced-tab controls, then append the control to its `tab|section` group,
creating the group (at the end, insertion order) if absent. -/
def groupStep (controls : List (String × Ctrl)) (grouped : List (String × Group))
    (kc : String × Ctrl) : List (String × Group) :=
  if should_skip kc.1 kc.2 then grouped
  else
    let sect := kc.2.sectionKey.getD "other"
    let tab := effectiveTab controls kc
    if tab == "advanced" then grouped
    else
      let gk := tab ++ "|" ++ sect
      if (grouped.find? (fun g => g.1 == gk)).isSome then
        grouped.map (fun g =>
          if g.1 == gk then (g.1, { g.2 with controls := g.2.controls ++ [kc] }) else g)
      else
        grouped ++ [(gk, { label := (sectionLabel controls sect).getD sect,
                           tab := tab, controls := [kc] })]

/-- The insertion-ordered `grouped` dict of `format_widget`. -/
def groupControls (controls : List (String × Ctrl)) : List (String × Group) :=
  controls.foldl (groupStep controls) []

/-- The bullet lines emitted for one tab: groups of that tab in insertion
order, each rendered as bold label, parenthetical tab name, and the
formatted controls joined by the middle dot separator. -/
def tabBullets (grouped : List (String × Group)) (tabName : String) : List String :=
  (grouped.filter (fun g => g.2.tab == tabName)).filterMap (fun g =>
    let ctrlStrs := g.2.controls.map (fun kc => format_control kc.1 kc.2)
    if ctrlStrs.isEmpty then none
    else some ("- **" ++ g.2.label ++ "** (" ++ tabName ++ "): " ++
      String.intercalate " · " ctrlStrs))

/-- The block formatter `format_widget(name, detail)`: heading, optional keyword line, then
bullet lines for the `content` and `style` tabs, in that order. -/
def format_widget (name : String) (detail : Detail) : String :=
  let title := detail.title.getD name
  let headLines := ["### `" ++ name ++ "` — " ++ title]
  let kwLines :=
    if detail.keywords.isEmpty then []
    else ["*" ++ String.intercalate ", " detail.keywords ++ "*"]
  let grouped := groupControls detail.controls
  String.intercalate "\n"
    (headLines ++ kwLines ++ (tabBullets grouped "content" ++ tabBullets grouped "style"))

/-! ## Credential/target resolution (module top level, lines 15-24)

The script uses the three positional arguments when `len(sys.argv) == 4`;
otherwise it falls back to the environment when `WORDPRESS_API_URL` is set to
a non-empty string (username and password default to `""`, the password
falling back to `WORDPRESS_APP_PASSWORD`); otherwise it prints the usage
message to stderr and exits with code 1, modelled as `none`, before any
network call is made. -/
def resolve_credentials (argv : List String) (env : String → Option String) :
    Option (String × String × String) :=
  if argv.length == 4 then
    some (argv.getD 1 "", argv.getD 2 "", argv.getD 3 "")
  else if (env "WORDPRESS_API_URL").getD "" != "" then
    some ((env "WORDPRESS_API_URL").getD "",
          (env "WORDPRESS_USERNAME").getD "",
          (match env "WORDPRESS_PASSWORD" with
           | some p => p
           | none => (env "WORDPRESS_APP_PASSWORD").getD ""))
  else none

/-! ## Document assembly -/

def category_order : List String :=
  ["basic", "general", "pro-elements", "theme-elements",
   "theme-elements-single", "theme-elements-archive", "link-in-bio"]

/-- Python's `sorted` on strings: ascending lexicographic by code point. -/
def pySorted (l : List String) : List String :=
  List.insertionSort (fun a b => a ≤ b) l

/-- The fixed document preamble (lines 213-226). -/
def preamble : List String :=
  ["# Elementor Widget Reference",
   "",
   "Auto-generated from the CommunityTech Widget Registry API on thailand.thesilkworthproject.com.",
   "To regenerate: query `GET /wp-json/communitytech/v1/elementor/widgets/<name>` for each widget.",
   "",
   "## Usage Notes",
   "",
   "- **Colors**: always use `__globals__` references — `\"__globals__\": \x7b\"title_color\": \"globals/colors?id=primary\"\x7d`",
   "- **Typography**: use `__globals__` — `\"__globals__\": \x7b\"typography_typography\": \"globals/typography?id=primary\"\x7d`",
   "- **Advanced tab** (margins, padding, motion effects, custom CSS): identical for all widgets, not shown here.",
   "- **Responsive variants** (`_tablet`, `_mobile`): not shown — append suffix to any control key.",
   "- **Full schema**: `GET /wp-json/communitytech/v1/elementor/widgets/<name>` returns every control.",
   "",
   "---"]

/-- Python `output_by_cat[cat]`, the formatted blocks bucketed under a category
(first match; dict keys are unique). -/
def lookupCat (obc : List (String × List String)) (cat : String) : List String :=
  ((obc.find? (fun kv => kv.1 == cat)).map Prod.snd).getD []

/-- Python `cat in output_by_cat`. -/
def hasCat (obc : List (String × List String)) (cat : String) : Bool :=
  (obc.find? (fun kv => kv.1 == cat)).isSome

/-- The markdown lines one category section contributes: blank line, `## `
heading, blank line, then each widget block followed by a blank line. -/
def catSection (obc : List (String × List String)) (cat : String) : List String :=
  ["", "## " ++ cat, ""] ++ (lookupCat obc cat).flatMap (fun w => [w, ""])

/-- The assembled document (as its list of `md` entries): preamble, the
present categories of `category_order` in that order, then the categories
outside `category_order` in sorted key order. -/
def buildMd (obc : List (String × List String)) : List String :=
  preamble ++
  (category_order.filter (fun c => hasCat obc c)).flatMap (catSection obc) ++
  ((pySorted (obc.map Prod.fst)).filter (fun c => !(category_order.contains c))).flatMap
    (catSection obc)

/-! ## Concrete fixtures used by witnesses and counterexamples -/

/-- A `select` control with six non-empty option keys. -/
def selCtrl6 : Ctrl :=
  { type := some "select",
    options := some (.omap [("a", .null), ("b", .null), ("c", .null),
                            ("d", .null), ("e", .null), ("f", .null)]) }

/-- A `select` control with eight non-empty option keys. -/
def selCtrl8 : Ctrl :=
  { type := some "select",
    options := some (.omap [("a", .null), ("b", .null), ("c", .null), ("d", .null),
                            ("e", .null), ("f", .null), ("g", .null), ("h", .null)]) }

/-- A `select` control whose options mapping is non-empty but has only the
empty key. -/
def selCtrlEmptyKeys : Ctrl :=
  { type := some "select", options := some (.omap [("", .str "x")]) }

/-- A `slider` control with default `{"size": 0, "unit": "px"}`. -/
def sliderCtrl0 : Ctrl :=
  { type := some "slider",
    default := some (.dict [("size", .num 0), ("unit", .str "px")]) }

/-- A plain `switcher` control. -/
def switcherCtrl : Ctrl := { type := some "switcher" }

/-- A section-less control sitting in the `advanced` tab. -/
def advCtrl : Ctrl := { type := some "slider", tab := some "advanced" }

/-- A widget detail whose only control lives in the `advanced` tab. -/
def advDetail : Detail :=
  { title := some "Spacer", controls := [("blank_space", advCtrl)] }

/-- An environment defining only `WORDPRESS_API_URL`. -/
def env0 : String → Option String :=
  fun k => if k == "WORDPRESS_API_URL" then some "https://example.com" else none

end WidgetRef

namespace WidgetRef

/-! ## Helper lemmas -/

theorem strAssoc (a b c : String) : (a ++ b) ++ c = a ++ (b ++ c) :=
  String.ext (by simp [String.data_append])

theorem par_lit (r a lit : String) (h : lit = " (" ++ a ++ ")") :
    r ++ lit = r ++ " (" ++ a ++ ")" := by
  rw [h]; simp only [strAssoc]

theorem foldl_inv {α β : Type} (f : β → α → β) (R : β → Prop)
    (hstep : ∀ b a, R b → R (f b a)) :
    ∀ (l : List α) (b : β), R b → R (l.foldl f b) := by
  intro l
  induction l with
  | nil => intro b hb; exact hb
  | cons x xs ih => intro b hb; exact ih (f b x) (hstep b x hb)

theorem foldl_fix {α β : Type} (f : β → α → β) :
    ∀ (l : List α), (∀ x ∈ l, ∀ b, f b x = b) → ∀ b, l.foldl f b = b := by
  intro l
  induction l with
  | nil => intro _ b; rfl
  | cons x xs ih =>
    intro h b
    rw [List.foldl_cons, h x (List.mem_cons_self x xs)]
    exact ih (fun y hy b' => h y (List.mem_cons_of_mem x hy) b') b

/-! ## Claim theorems -/

/-- C4: every control key starting with an underscore is skipped by
`should_skip`, regardless of the control's type and of every later rule,
including the `_typography`/`_type` keep-exception. -/
theorem c4_underscore_always_skipped (key : String) (ctrl : Ctrl)
    (h : pyStartsWith key "_" = true) : should_skip key ctrl = true := by
  simp [should_skip, h]

/-- C4 witness: `_element_id` is skipped even on a keep-type control. -/
theorem c4_witness : should_skip "_element_id" switcherCtrl = true :=
  c4_underscore_always_skipped "_element_id" switcherCtrl (by decide)

/-- C3: a key matching a `SKIP_CONTAINS` pattern but ending in `_typography`
or `_type` is kept (`should_skip` returns false), provided no earlier rule
catches it (no leading underscore, type not in `SKIP_TYPES`, no responsive
suffix, not in `SKIP_EXACT`). -/
theorem c3_typography_type_exception (key : String) (ctrl : Ctrl)
    (h1 : pyStartsWith key "_" = false)
    (h2 : typeSkipped ctrl = false)
    (h3 : SKIP_SUFFIXES.any (fun s => pyEndsWith key s) = false)
    (h4 : SKIP_EXACT.contains key = false)
    (h5 : SKIP_CONTAINS.any (fun p => pyContains key p) = true)
    (h6 : (pyEndsWith key "_typography" || pyEndsWith key "_type") = true) :
    should_skip key ctrl = false := by
  unfold should_skip
  rw [h1, h2, h3, h4, h5, h6]
  rfl

/-- C3 witness: `title_text_shadow_type` contains the `_text_shadow` pattern
yet is kept. -/
theorem c3_witness : should_skip "title_text_shadow_type" switcherCtrl = false :=
  c3_typography_type_exception "title_text_shadow_type" switcherCtrl
    (by decide) (by decide) (by decide) (by decide) (by decide) (by decide)

/-- C7: a widget identifier in the exact-name exclusion set, or starting
with an excluded prefix, never appears in the fetch worklist `practical`. -/
theorem c7_excluded_never_in_worklist (widgets : List String) (name : String)
    (h : skip_names.contains name = true ∨
         skip_prefixes.any (fun p => pyStartsWith name p) = true) :
    ¬ name ∈ practical widgets := by
  intro hm
  simp only [practical, List.mem_filter] at hm
  obtain ⟨-, hp⟩ := hm
  rcases h with h | h <;> rw [h] at hp <;> simp at hp

/-- C7 witness: `common` (exact exclusion) and `wp-widget-text` (prefix
exclusion) are absent from worklists built over lists containing them. -/
theorem c7_witness :
    (¬ "common" ∈ practical ["common", "heading"]) ∧
    (¬ "wp-widget-text" ∈ practical ["heading", "wp-widget-text"]) :=
  ⟨c7_excluded_never_in_worklist ["common", "heading"] "common" (Or.inl (by decide)),
   c7_excluded_never_in_worklist ["heading", "wp-widget-text"] "wp-widget-text"
     (Or.inr (by decide))⟩

/-- C10: a `slider` control whose `default` mapping has `size` 0 or no
`size` entry renders as the bare `(slider)` parenthetical, even when the
default contains a `unit`. -/
theorem c10_slider_zero_or_missing_size (key : String) (ctrl : Ctrl)
    (d : List (String × JVal))
    (ht : ctrl.type = some "slider")
    (hd : ctrl.default = some (.dict d))
    (hs : alistGet d "size" = none ∨ alistGet d "size" = some (.num 0)) :
    format_control key ctrl = "`" ++ key ++ "`" ++ " (slider)" := by
  have hsz : ((alistGet d "size").map JVal.truthy).getD false = false := by
    rcases hs with h | h <;> rw [h] <;> rfl
  unfold format_control
  rw [ht, hd]
  cases hop : ctrl.options with
  | none => simp [hsz]
  | some ov =>
    cases ov with
    | omap entries => simp [hsz]
    | olist xs =>
      simp only [Option.getD_some]
      rw [show (" (slider)" : String) = " (" ++ "slider" ++ ")" from by decide]
      simp only [strAssoc]

/-- C10 witness: default `{"size": 0, "unit": "px"}` renders with no
default shown. -/
theorem c10_witness : format_control "space" sliderCtrl0 = "`" ++ "space" ++ "`" ++ " (slider)" :=
  c10_slider_zero_or_missing_size "space" sliderCtrl0
    [("size", .num 0), ("unit", .str "px")] rfl rfl (Or.inr rfl)

/-- C1 (amended): a surviving `select` control with a non-empty options
mapping and at least one non-empty key shows all non-empty option keys when
there are at most 6 of them; with more than 6 it shows the first 5 followed
by `+N`, where N counts the omitted keys. -/
theorem c1_select_truncation (key : String) (ctrl : Ctrl)
    (entries : List (String × JVal))
    (ht : ctrl.type = some "select")
    (ho : ctrl.options = some (.omap entries))
    (hne : entries.isEmpty = false)
    (hk : ((entries.map Prod.fst).filter (fun k => k != "")).isEmpty = false) :
    format_control key ctrl =
      (if ((entries.map Prod.fst).filter (fun k => k != "")).length ≤ 6 then
        "`" ++ key ++ "`" ++ " (" ++
          String.intercalate ", " ((entries.map Prod.fst).filter (fun k => k != "")) ++ ")"
      else
        "`" ++ key ++ "`" ++ " (" ++
          String.intercalate ", "
            (((entries.map Prod.fst).filter (fun k => k != "")).take 5) ++
          ", +" ++
          toString ((((entries.map Prod.fst).filter (fun k => k != "")).length) - 5) ++ ")") := by
  unfold format_control
  rw [ht, ho]
  simp [hne, hk]

/-- C1 witness: with 8 non-empty option keys the fragment shows the first 5
followed by `+3`. -/
theorem c1_witness :
    format_control "heading_size" selCtrl8 = "`heading_size` (a, b, c, d, e, +3)" :=
  (c1_select_truncation "heading_size" selCtrl8
    [("a", .null), ("b", .null), ("c", .null), ("d", .null),
     ("e", .null), ("f", .null), ("g", .null), ("h", .null)]
    rfl rfl rfl rfl).trans (by decide)

/-- C1 counterexample: a surviving `select` control with 6 non-empty option
keys shows all 6 of them with no `+N` suffix, so the fragment does not show
at most 5 option keys. -/
theorem c1_counterexample :
    should_skip "text_align" selCtrl6 = false ∧
    format_control "text_align" selCtrl6 = "`text_align` (a, b, c, d, e, f)" ∧
    pyContains (format_control "text_align" selCtrl6) "+" = false := by
  decide

/-- C2 counterexample: with no positional arguments and an environment
defining only `WORDPRESS_API_URL` (username and password variables unset —
so neither credential source is complete), the script does not exit with the
usage message: it proceeds with empty username and password. -/
theorem c2_counterexample :
    resolve_credentials ["generate-widget-reference.py"] env0 =
      some ("https://example.com", "", "") ∧
    env0 "WORDPRESS_USERNAME" = none ∧
    env0 "WORDPRESS_PASSWORD" = none ∧
    env0 "WORDPRESS_APP_PASSWORD" = none := by
  decide

/-- C2 (amended): the script prints the usage message and exits with code 1
(modelled as `none`, before any network call) exactly when the positional
argument count is not three and `WORDPRESS_API_URL` is unset or empty; the
username/password variables are never checked, defaulting to the empty
string. -/
theorem c2_usage_exit_iff (argv : List String) (env : String → Option String) :
    resolve_credentials argv env = none ↔
      (argv.length ≠ 4 ∧ (env "WORDPRESS_API_URL").getD "" = "") := by
  by_cases h4 : argv.length = 4
  · simp [resolve_credentials, h4]
  · by_cases hu : (env "WORDPRESS_API_URL").getD "" = ""
    · simp [resolve_credentials, h4, hu]
    · simp [resolve_credentials, h4, hu]

/-- C8 counterexample: a surviving `select` control whose options mapping is
non-empty but has only the empty key renders as the bare backtick-quoted
key, with no parenthetical at all. -/
theorem c8_counterexample :
    should_skip "align" selCtrlEmptyKeys = false ∧
    format_control "align" selCtrlEmptyKeys = "`align`" ∧
    pyContains (format_control "align" selCtrlEmptyKeys) "(" = false := by
  decide

/-- C8 (amended): every surviving control renders as the backtick-quoted
key followed by a type-specific parenthetical, except a `select` control
with a non-empty options mapping all of whose keys are empty, which renders
as the bare quoted key. -/
theorem c8_backtick_parenthetical (key : String) (ctrl : Ctrl)
    (_hs : should_skip key ctrl = false)
    (hx : ∀ entries : List (String × JVal),
        ctrl.type.getD "unknown" = "select" →
        ctrl.options.getD (.omap []) = .omap entries →
        entries.isEmpty = false →
        ((entries.map Prod.fst).filter (fun k => k != "")).isEmpty = false) :
    ∃ s, format_control key ctrl = "`" ++ key ++ "`" ++ " (" ++ s ++ ")" := by
  simp only [format_control]
  cases hop : ctrl.options.getD (.omap []) with
  | olist xs => exact ⟨ctrl.type.getD "unknown", rfl⟩
  | omap entries =>
    dsimp only
    by_cases hsel : (ctrl.type.getD "unknown" == "select" && !entries.isEmpty) = true
    · rw [if_pos hsel]
      have hsel' := hsel
      simp only [Bool.and_eq_true, beq_iff_eq, Bool.not_eq_true'] at hsel'
      have hke := hx entries hsel'.1 hop hsel'.2
      rw [if_neg (by simp [hke])]
      by_cases hlen : ((entries.map Prod.fst).filter (fun k => k != "")).length ≤ 6
      · rw [if_pos hlen]
        exact ⟨_, rfl⟩
      · rw [if_neg hlen]
        refine ⟨String.intercalate ", "
            (((entries.map Prod.fst).filter (fun k => k != "")).take 5) ++ ", +" ++
            toString ((((entries.map Prod.fst).filter (fun k => k != "")).length) - 5), ?_⟩
        simp only [strAssoc]
    · rw [if_neg hsel]
      by_cases hc : ctrl.type.getD "unknown" = "choose"
      · rw [if_pos hc]; exact ⟨_, rfl⟩
      rw [if_neg hc]
      by_cases hr : ctrl.type.getD "unknown" = "repeater"
      · rw [if_pos hr]
        exact ⟨"repeater", par_lit _ "repeater" " (repeater)" (by decide)⟩
      rw [if_neg hr]
      by_cases hw : ctrl.type.getD "unknown" = "switcher"
      · rw [if_pos hw]
        exact ⟨"on/off", par_lit _ "on/off" " (on/off)" (by decide)⟩
      rw [if_neg hw]
      by_cases hco : ctrl.type.getD "unknown" = "color"
      · rw [if_pos hco]
        exact ⟨"color", par_lit _ "color" " (color)" (by decide)⟩
      rw [if_neg hco]
      by_cases hsl : ctrl.type.getD "unknown" = "slider"
      · rw [if_pos hsl]
        cases hdf : ctrl.default.getD (.str "") with
        | dict dd =>
          dsimp only
          by_cases hcond :
              (!dd.isEmpty && ((alistGet dd "size").map JVal.truthy).getD false) = true
          · rw [if_pos hcond]
            refine ⟨"slider, default: " ++ ((alistGet dd "size").getD .null).pyStr ++
              ((alistGet dd "unit").getD (.str "")).pyStr, ?_⟩
            rw [show (" (slider, default: " : String) = " (" ++ "slider, default: " from
              by decide]
            simp only [strAssoc]
          · rw [if_neg hcond]
            exact ⟨"slider", par_lit _ "slider" " (slider)" (by decide)⟩
        | str s1 => exact ⟨"slider", par_lit _ "slider" " (slider)" (by decide)⟩
        | num n => exact ⟨"slider", par_lit _ "slider" " (slider)" (by decide)⟩
        | bool b => exact ⟨"slider", par_lit _ "slider" " (slider)" (by decide)⟩
        | null => exact ⟨"slider", par_lit _ "slider" " (slider)" (by decide)⟩
        | arr xs => exact ⟨"slider", par_lit _ "slider" " (slider)" (by decide)⟩
      rw [if_neg hsl]
      by_cases hdi : ctrl.type.getD "unknown" = "dimensions"
      · rw [if_pos hdi]
        exact ⟨"dimensions", par_lit _ "dimensions" " (dimensions)" (by decide)⟩
      rw [if_neg hdi]
      by_cases hme : ctrl.type.getD "unknown" = "media"
      · rw [if_pos hme]
        exact ⟨"media", par_lit _ "media" " (media)" (by decide)⟩
      rw [if_neg hme]
      by_cases hga : ctrl.type.getD "unknown" = "gallery"
      · rw [if_pos hga]
        exact ⟨"gallery", par_lit _ "gallery" " (gallery)" (by decide)⟩
      rw [if_neg hga]
      by_cases hic : ctrl.type.getD "unknown" = "icons"
      · rw [if_pos hic]
        exact ⟨"icons", par_lit _ "icons" " (icons)" (by decide)⟩
      rw [if_neg hic]
      by_cases hur : ctrl.type.getD "unknown" = "url"
      · rw [if_pos hur]
        exact ⟨"url", par_lit _ "url" " (url)" (by decide)⟩
      rw [if_neg hur]
      by_cases hwy : ctrl.type.getD "unknown" = "wysiwyg"
      · rw [if_pos hwy]
        exact ⟨"wysiwyg", par_lit _ "wysiwyg" " (wysiwyg)" (by decide)⟩
      rw [if_neg hwy]
      by_cases htx : (ctrl.type.getD "unknown" = "text" ∨
          ctrl.type.getD "unknown" = "textarea" ∨ ctrl.type.getD "unknown" = "number")
      · rw [if_pos htx]
        cases hdf : ctrl.default.getD (.str "") with
        | str s1 =>
          dsimp only
          by_cases hcond : s1 ≠ "" ∧ s1.length < 30
          · rw [if_pos hcond]
            refine ⟨ctrl.type.getD "unknown" ++ ", default: \"" ++ s1 ++ "\"", ?_⟩
            rw [show ("\")" : String) = "\"" ++ ")" from by decide]
            simp only [strAssoc]
          · rw [if_neg hcond]
            exact ⟨_, rfl⟩
        | dict dd => exact ⟨_, rfl⟩
        | num n => exact ⟨_, rfl⟩
        | bool b => exact ⟨_, rfl⟩
        | null => exact ⟨_, rfl⟩
        | arr xs => exact ⟨_, rfl⟩
      · rw [if_neg htx]
        exact ⟨_, rfl⟩

/-- C8 witness: a surviving `switcher` control renders with a
parenthetical. -/
theorem c8_witness :
    ∃ s, format_control "show_label" switcherCtrl =
      "`" ++ "show_label" ++ "`" ++ " (" ++ s ++ ")" :=
  c8_backtick_parenthetical "show_label" switcherCtrl (by decide)
    (fun entries h1 _ _ => absurd h1 (by decide))

/-! ### Grouping-loop invariants -/

theorem groupStep_no_adv (controls : List (String × Ctrl)) :
    ∀ (acc : List (String × Group)) (kc : String × Ctrl),
      (∀ g ∈ acc, ∀ kc0 ∈ g.2.controls, effectiveTab controls kc0 ≠ "advanced") →
      ∀ g ∈ groupStep controls acc kc, ∀ kc0 ∈ g.2.controls,
        effectiveTab controls kc0 ≠ "advanced" := by
  intro acc kc hR
  unfold groupStep
  by_cases hskip : should_skip kc.1 kc.2 = true
  · rw [if_pos hskip]; exact hR
  · rw [if_neg hskip]
    dsimp only
    by_cases hadv : (effectiveTab controls kc == "advanced") = true
    · rw [if_pos hadv]; exact hR
    · rw [if_neg hadv]
      have hadv' : effectiveTab controls kc ≠ "advanced" := by simpa using hadv
      by_cases hfind : (acc.find? (fun g =>
          g.1 == effectiveTab controls kc ++ "|" ++ kc.2.sectionKey.getD "other")).isSome = true
      · rw [if_pos hfind]
        intro g hg kc0 hkc0
        rw [List.mem_map] at hg
        obtain ⟨g0, hg0, hmap⟩ := hg
        by_cases hk : (g0.1 == effectiveTab controls kc ++ "|" ++
            kc.2.sectionKey.getD "other") = true
        · rw [if_pos hk] at hmap
          rw [← hmap] at hkc0
          rcases List.mem_append.mp hkc0 with h0 | h0
          · exact hR g0 hg0 kc0 h0
          · rw [List.mem_singleton] at h0
            rw [h0]; exact hadv'
        · rw [if_neg hk] at hmap
          rw [← hmap] at hkc0
          exact hR g0 hg0 kc0 hkc0
      · rw [if_neg hfind]
        intro g hg kc0 hkc0
        rcases List.mem_append.mp hg with h0 | h0
        · exact hR g h0 kc0 hkc0
        · rw [List.mem_singleton] at h0
          rw [h0] at hkc0
          rw [List.mem_singleton.mp hkc0]
          exact hadv'

theorem groupStep_fix (controls : List (String × Ctrl)) (kc : String × Ctrl)
    (h : should_skip kc.1 kc.2 = true ∨ effectiveTab controls kc = "advanced") :
    ∀ acc, groupStep controls acc kc = acc := by
  intro acc
  rcases h with h | h <;> simp [groupStep, h]

theorem groupStep_wf (controls : List (String × Ctrl)) :
    ∀ (acc : List (String × Group)) (kc : String × Ctrl),
      (∀ p ∈ acc, ∃ s, p.1 = p.2.tab ++ "|" ++ s ∧
        p.2.label = (sectionLabel controls s).getD s) →
      ∀ p ∈ groupStep controls acc kc, ∃ s, p.1 = p.2.tab ++ "|" ++ s ∧
        p.2.label = (sectionLabel controls s).getD s := by
  intro acc kc hQ
  unfold groupStep
  by_cases hskip : should_skip kc.1 kc.2 = true
  · rw [if_pos hskip]; exact hQ
  · rw [if_neg hskip]
    dsimp only
    by_cases hadv : (effectiveTab controls kc == "advanced") = true
    · rw [if_pos hadv]; exact hQ
    · rw [if_neg hadv]
      by_cases hfind : (acc.find? (fun g =>
          g.1 == effectiveTab controls kc ++ "|" ++ kc.2.sectionKey.getD "other")).isSome = true
      · rw [if_pos hfind]
        intro p hp
        rw [List.mem_map] at hp
        obtain ⟨p0, hp0, hmap⟩ := hp
        obtain ⟨s, hs1, hs2⟩ := hQ p0 hp0
        by_cases hk : (p0.1 == effectiveTab controls kc ++ "|" ++
            kc.2.sectionKey.getD "other") = true
        · rw [if_pos hk] at hmap
          rw [← hmap]
          exact ⟨s, hs1, hs2⟩
        · rw [if_neg hk] at hmap
          rw [← hmap]
          exact ⟨s, hs1, hs2⟩
      · rw [if_neg hfind]
        intro p hp
        rcases List.mem_append.mp hp with h0 | h0
        · exact hQ p h0
        · rw [List.mem_singleton] at h0
          rw [h0]
          exact ⟨kc.2.sectionKey.getD "other", rfl, rfl⟩

theorem groupStep_persist (controls : List (String × Ctrl)) (gk : String)
    (kc0 : String × Ctrl) (L T : String) :
    ∀ (acc : List (String × Group)) (kc : String × Ctrl),
      (∃ g, (gk, g) ∈ acc ∧ kc0 ∈ g.controls ∧ g.label = L ∧ g.tab = T) →
      ∃ g, (gk, g) ∈ groupStep controls acc kc ∧ kc0 ∈ g.controls ∧
        g.label = L ∧ g.tab = T := by
  intro acc kc hP
  obtain ⟨g, hg, hmem, hlab, htab⟩ := hP
  unfold groupStep
  by_cases hskip : should_skip kc.1 kc.2 = true
  · rw [if_pos hskip]; exact ⟨g, hg, hmem, hlab, htab⟩
  · rw [if_neg hskip]
    dsimp only
    by_cases hadv : (effectiveTab controls kc == "advanced") = true
    · rw [if_pos hadv]; exact ⟨g, hg, hmem, hlab, htab⟩
    · rw [if_neg hadv]
      by_cases hfind : (acc.find? (fun g =>
          g.1 == effectiveTab controls kc ++ "|" ++ kc.2.sectionKey.getD "other")).isSome = true
      · rw [if_pos hfind]
        have himg := List.mem_map_of_mem (fun g =>
          if g.1 == effectiveTab controls kc ++ "|" ++ kc.2.sectionKey.getD "other" then
            (g.1, { g.2 with controls := g.2.controls ++ [kc] })
          else g) hg
        dsimp only at himg
        by_cases hk : (gk == effectiveTab controls kc ++ "|" ++
            kc.2.sectionKey.getD "other") = true
        · rw [if_pos hk] at himg
          exact ⟨{ g with controls := g.controls ++ [kc] }, himg,
            List.mem_append_left _ hmem, hlab, htab⟩
        · rw [if_neg hk] at himg
          exact ⟨g, himg, hmem, hlab, htab⟩
      · rw [if_neg hfind]
        exact ⟨g, List.mem_append_left _ hg, hmem, hlab, htab⟩

theorem bar_split : ∀ (a c b d : List Char),
    a ++ '|' :: b = c ++ '|' :: d → ¬ '|' ∈ c → ¬ '|' ∈ d → a = c ∧ b = d := by
  intro a
  induction a with
  | nil =>
    intro c b d heq hc hd
    cases c with
    | nil =>
      refine ⟨rfl, ?_⟩
      simpa using heq
    | cons x cs =>
      simp at heq
      exact absurd (heq.1 ▸ List.mem_cons_self x cs) hc
  | cons y ys ih =>
    intro c b d heq hc hd
    cases c with
    | nil =>
      simp at heq
      rw [← heq.2] at hd
      exact absurd (by simp : '|' ∈ ys ++ '|' :: b) hd
    | cons x cs =>
      simp at heq
      have hrec := ih cs b d heq.2 (fun hm => hc (List.mem_cons_of_mem _ hm)) hd
      exact ⟨by rw [heq.1, hrec.1], hrec.2⟩

theorem bar_split_str (a c b d : String)
    (heq : a ++ "|" ++ b = c ++ "|" ++ d)
    (hc : ¬ '|' ∈ c.data) (hd : ¬ '|' ∈ d.data) : a = c ∧ b = d := by
  have hbar : ("|" : String).data = ['|'] := rfl
  have h2 : a.data ++ '|' :: b.data = c.data ++ '|' :: d.data := by
    have h3 := congrArg String.data heq
    simpa [String.data_append, hbar] using h3
  have h4 := bar_split a.data c.data b.data d.data h2 hc hd
  exact ⟨String.ext h4.1, String.ext h4.2⟩

theorem groupStep_insert_other (controls : List (String × Ctrl)) (kc : String × Ctrl)
    (hskip : should_skip kc.1 kc.2 = false)
    (hsec : kc.2.sectionKey = none)
    (hother : sectionHeader controls "other" = none)
    (hadv : kc.2.tab.getD "content" ≠ "advanced")
    (hbar : ¬ '|' ∈ (kc.2.tab.getD "content").data)
    (acc : List (String × Group))
    (hQ : ∀ p ∈ acc, ∃ s, p.1 = p.2.tab ++ "|" ++ s ∧
      p.2.label = (sectionLabel controls s).getD s) :
    ∃ g, (kc.2.tab.getD "content" ++ "|" ++ "other", g) ∈ groupStep controls acc kc ∧
      kc ∈ g.controls ∧ g.label = "other" ∧ g.tab = kc.2.tab.getD "content" := by
  have heff : effectiveTab controls kc = kc.2.tab.getD "content" := by
    unfold effectiveTab sectionTab
    rw [hsec]
    simp only [Option.getD_none]
    rw [hother]
    rfl
  unfold groupStep
  rw [if_neg (by simp [hskip])]
  dsimp only
  rw [hsec]
  simp only [Option.getD_none]
  rw [heff]
  rw [if_neg (by simp [hadv])]
  by_cases hfind : (acc.find? (fun g =>
      g.1 == kc.2.tab.getD "content" ++ "|" ++ "other")).isSome = true
  · rw [if_pos hfind]
    obtain ⟨p, hpfind⟩ := Option.isSome_iff_exists.mp hfind
    have hpmem := List.mem_of_find?_eq_some hpfind
    have hpkey := List.find?_some hpfind
    have hpkey' : p.1 = kc.2.tab.getD "content" ++ "|" ++ "other" := by simpa using hpkey
    obtain ⟨s, hs1, hs2⟩ := hQ p hpmem
    have hsplit := bar_split_str p.2.tab (kc.2.tab.getD "content") s "other"
      (by rw [← hs1, hpkey']) hbar (by decide)
    have hlab : p.2.label = "other" := by
      rw [hs2, hsplit.2]
      unfold sectionLabel
      rw [hother]
      rfl
    refine ⟨{ p.2 with controls := p.2.controls ++ [kc] }, ?_, ?_, hlab, hsplit.1⟩
    · have himg := List.mem_map_of_mem (fun g =>
        if g.1 == kc.2.tab.getD "content" ++ "|" ++ "other" then
          (g.1, { g.2 with controls := g.2.controls ++ [kc] })
        else g) hpmem
      dsimp only at himg
      rw [if_pos (show (p.1 == kc.2.tab.getD "content" ++ "|" ++ "other") = true by
        simp [hpkey'])] at himg
      rw [hpkey'] at himg
      exact himg
    · exact List.mem_append_right _ (List.mem_singleton.mpr rfl)
  · rw [if_neg hfind]
    refine ⟨{ label := (sectionLabel controls "other").getD "other",
              tab := kc.2.tab.getD "content", controls := [kc] },
      List.mem_append_right _ (List.mem_singleton.mpr rfl),
      List.mem_singleton.mpr rfl, ?_, rfl⟩
    unfold sectionLabel
    rw [hother]
    rfl

/-- C5: no control whose effective tab is `advanced` ever contributes to any
group of a widget block; in particular a widget all of whose non-skipped
controls sit in the `advanced` tab formats as just the heading (plus the
keyword line when keywords exist), with no bullet lines. -/
theorem c5_advanced_tab_omitted :
    (∀ (controls : List (String × Ctrl)), ∀ g ∈ groupControls controls,
        ∀ kc ∈ g.2.controls, effectiveTab controls kc ≠ "advanced") ∧
    (∀ (name : String) (detail : Detail),
        (∀ kc ∈ detail.controls, should_skip kc.1 kc.2 = false →
            effectiveTab detail.controls kc = "advanced") →
        format_widget name detail =
          String.intercalate "\n"
            (["### `" ++ name ++ "` — " ++ detail.title.getD name] ++
             (if detail.keywords.isEmpty then []
              else ["*" ++ String.intercalate ", " detail.keywords ++ "*"]))) := by
  constructor
  · intro controls g hg kc hkc
    exact foldl_inv (groupStep controls)
      (fun acc => ∀ g ∈ acc, ∀ kc0 ∈ g.2.controls, effectiveTab controls kc0 ≠ "advanced")
      (groupStep_no_adv controls) controls []
      (fun g hg => absurd hg (List.not_mem_nil g)) g hg kc hkc
  · intro name detail h
    have hempty : groupControls detail.controls = [] := by
      unfold groupControls
      apply foldl_fix
      intro kc hkc b
      apply groupStep_fix
      by_cases hsk : should_skip kc.1 kc.2 = true
      · exact Or.inl hsk
      · exact Or.inr (h kc hkc (by simpa using hsk))
    unfold format_widget
    rw [hempty]
    simp [tabBullets]

/-- C5 witness: a widget whose only control is a non-skipped `advanced`-tab
control renders as the bare heading. -/
theorem c5_witness : format_widget "spacer" advDetail = "### `spacer` — Spacer" :=
  (c5_advanced_tab_omitted.2 "spacer" advDetail (by decide)).trans (by decide)

/-- C9 counterexample: a non-skipped control with no `section` field whose
own `tab` is `advanced` is not grouped under `other` (or anywhere): the
grouped dict stays empty. -/
theorem c9_counterexample :
    should_skip "blank_space" advCtrl = false ∧
    advCtrl.sectionKey = none ∧
    groupControls [("blank_space", advCtrl)] = [] := by
  refine ⟨by decide, rfl, rfl⟩

/-- C9 (amended): a non-skipped control with no `section` field, whose tab
value (its own `tab` field, or `content` when absent) is not `advanced` and
contains no group-key separator `|`, is grouped — when no section-header
control named `other` exists — under the group key formed from that tab
value and the pseudo-section `other`, in a group whose label is the literal
string `other` and whose tab is that tab value. -/
theorem c9_sectionless_grouped_under_other (controls : List (String × Ctrl))
    (key : String) (ctrl : Ctrl)
    (hmem : (key, ctrl) ∈ controls)
    (hskip : should_skip key ctrl = false)
    (hsec : ctrl.sectionKey = none)
    (hother : sectionHeader controls "other" = none)
    (hadv : ctrl.tab.getD "content" ≠ "advanced")
    (hbar : ¬ '|' ∈ (ctrl.tab.getD "content").data) :
    ∃ g, (ctrl.tab.getD "content" ++ "|" ++ "other", g) ∈ groupControls controls ∧
      (key, ctrl) ∈ g.controls ∧ g.label = "other" ∧
      g.tab = ctrl.tab.getD "content" := by
  obtain ⟨l₁, l₂, rfl⟩ := List.append_of_mem hmem
  unfold groupControls
  rw [List.foldl_append, List.foldl_cons]
  have hQ1 := foldl_inv (groupStep (l₁ ++ (key, ctrl) :: l₂))
    (fun acc => ∀ p ∈ acc, ∃ s, p.1 = p.2.tab ++ "|" ++ s ∧
      p.2.label = (sectionLabel (l₁ ++ (key, ctrl) :: l₂) s).getD s)
    (groupStep_wf (l₁ ++ (key, ctrl) :: l₂)) l₁ []
    (fun p hp => absurd hp (List.not_mem_nil p))
  have hP := groupStep_insert_other (l₁ ++ (key, ctrl) :: l₂) (key, ctrl)
    hskip hsec hother hadv hbar _ hQ1
  exact foldl_inv (groupStep (l₁ ++ (key, ctrl) :: l₂))
    (fun acc => ∃ g, (ctrl.tab.getD "content" ++ "|" ++ "other", g) ∈ acc ∧
      (key, ctrl) ∈ g.controls ∧ g.label = "other" ∧ g.tab = ctrl.tab.getD "content")
    (groupStep_persist (l₁ ++ (key, ctrl) :: l₂) _ _ _ _) l₂ _ hP

/-- C9 witness: a section-less `text` control with no tab field lands in the
`content|other` group labelled `other`. -/
theorem c9_witness :
    ∃ g, (("content" : String) ++ "|" ++ "other", g) ∈
        groupControls [("title", { type := some "text" : Ctrl })] ∧
      ("title", { type := some "text" : Ctrl }) ∈ g.controls ∧
      g.label = "other" ∧ g.tab = "content" :=
  c9_sectionless_grouped_under_other [("title", { type := some "text" })] "title"
    { type := some "text" } (List.mem_singleton.mpr rfl) (by decide) rfl rfl
    (by decide) (by decide)

/-! ### Sorting commutes with filtering (for the document assembler) -/

theorem pySorted_filter (p : String → Bool) (l : List String) :
    pySorted (l.filter p) = (pySorted l).filter p := by
  apply List.eq_of_perm_of_sorted (r := fun a b : String => a ≤ b)
  · exact (List.perm_insertionSort _ _).trans ((List.perm_insertionSort _ l).filter p).symm
  · exact List.sorted_insertionSort _ _
  · exact (List.sorted_insertionSort _ l).filter p

/-- C6: the assembled document is the preamble followed by the category
sections of the present `category_order` categories, in that fixed order,
followed by the sections of all remaining categories in ascending
lexicographic order among themselves. -/
theorem c6_category_ordering (obc : List (String × List String)) :
    buildMd obc =
      preamble ++
      ((category_order.filter (fun c => hasCat obc c)) ++
        pySorted ((obc.map Prod.fst).filter (fun c => !(category_order.contains c)))).flatMap
        (catSection obc) := by
  unfold buildMd
  rw [List.flatMap_append, pySorted_filter]
  simp [List.append_assoc]

end WidgetRef
